import Mathlib

/-!
Verification of the lookup-proxy core of the `sbf` repository
(`src/app/api/profiles/route.ts`, embedded at the bottom of
`src/src/app/page.tsx`): a fid-lookup API route with an in-memory
TTL cache, a fixed-window per-IP rate limiter, a response normalizer
and the GET orchestrator.

The embedding is shallow: JavaScript `Map`s become association lists,
`Date.now()` becomes an explicit `now : Int` parameter (milliseconds),
the upstream `fetch` becomes an explicit `Upstream` input describing
the response the network would deliver, and the untyped upstream user
record becomes a structure with one optional field per property path
that `normalizeUser` probes.  Upstream records are modelled as objects
(the only shape the happy path of the route handles).
-/

/-- A JavaScript value sitting in the `fid`/`id` slot of an upstream
record: the route applies `String(...)` to it, so only its string
coercion matters.  `none` at the field level models both `undefined`
and `null` (both fall through `??`). -/
inductive JVal where
  | jnum (n : Int)
  | jstr (s : String)
deriving DecidableEq

/-- `String(v)` for the values of `JVal`. -/
def jvalToString : JVal → String
  | JVal.jnum n => toString n
  | JVal.jstr s => s

/-- JavaScript `s.trim()`: strip leading and trailing whitespace. -/
def jsTrim (s : String) : String :=
  ⟨((s.data.dropWhile Char.isWhitespace).reverse.dropWhile Char.isWhitespace).reverse⟩

/-- The test `/^\d+$/.test(s)` restricted to non-empty input: every
character is a decimal digit (in JavaScript, without the `m` flag, `^`/`$`
anchor at the very start and end of the input). -/
def allDigits (s : String) : Bool := s.data.all Char.isDigit

/-- JavaScript `s.includes(",")`. -/
def hasComma (s : String) : Bool := s.data.any (· = ',')

/-- The untyped upstream user record, restricted to the property paths the
route reads: `fid`, `id`, `displayName`, `display_name`, `name`, `username`,
`handle`, `pfp_url`, `avatar_url`, `profile.pfp_url`, `raw.profile.pfp_url`,
`bio`, `profile.bio.text`, `raw.profile.bio.text`, `follower_count`,
`followersCount`, `raw.profile.follower_count`.  Every field defaults to
`none` (absent). -/
structure RawUser where
  fid : Option JVal := none
  id : Option JVal := none
  displayName : Option String := none
  display_name : Option String := none
  name : Option String := none
  username : Option String := none
  handle : Option String := none
  pfp_url : Option String := none
  avatar_url : Option String := none
  profile_pfp_url : Option String := none
  raw_profile_pfp_url : Option String := none
  bio : Option String := none
  profile_bio_text : Option String := none
  raw_profile_bio_text : Option String := none
  follower_count : Option Int := none
  followersCount : Option Int := none
  raw_profile_follower_count : Option Int := none
deriving DecidableEq

/-- `String(u.fid ?? u.id ?? "")` — the expression the route uses both in
`normalizeUser` (line 330) and to compute `foundFid` (line 446). -/
def rawIdent (u : RawUser) : String :=
  match u.fid with
  | some v => jvalToString v
  | none =>
    match u.id with
    | some v => jvalToString v
    | none => ""

/-- The shape `normalizeUser` returns (the client-side `Profile` type):
canonical fields plus the verbatim record in `raw`. -/
structure NormalizedProfile where
  fid : String
  displayName : Option String
  username : Option String
  avatarUrl : Option String
  bio : Option String
  followerCount : Option Int
  raw : RawUser
deriving DecidableEq

/-- `normalizeUser` (page.tsx lines 328–344): first-present-wins alias
probing; `a ?? b` on optional fields is `<|>` on `Option`. -/
def normalizeUser (u : RawUser) : NormalizedProfile :=
  { fid := rawIdent u
    displayName := u.displayName <|> u.display_name <|> u.name
    username := u.username <|> u.handle
    avatarUrl := u.pfp_url <|> u.avatar_url <|> u.profile_pfp_url <|> u.raw_profile_pfp_url
    bio := u.bio <|> u.profile_bio_text <|> u.raw_profile_bio_text
    followerCount := u.follower_count <|> u.followersCount <|> u.raw_profile_follower_count
    raw := u }

/-- Association-list lookup, modelling `Map.get`. -/
def mfind {β : Type} : List (String × β) → String → Option β
  | [], _ => none
  | (k, v) :: rest, key => if k = key then some v else mfind rest key

/-- Association-list insert-or-replace, modelling `Map.set`. -/
def mset {β : Type} : List (String × β) → String → β → List (String × β)
  | [], key, v => [(key, v)]
  | (k, w) :: rest, key, v =>
    if k = key then (k, v) :: rest else (k, w) :: mset rest key v

/-- Association-list removal, modelling `Map.delete`. -/
def mdel {β : Type} : List (String × β) → String → List (String × β)
  | [], _ => []
  | (k, w) :: rest, key => if k = key then mdel rest key else (k, w) :: mdel rest key

/-- `CACHE_TTL_MS = 5 * 60 * 1000` (5 minutes). -/
def CACHE_TTL_MS : Int := 5 * 60 * 1000

/-- `RATE_LIMIT_WINDOW_MS = 60 * 60 * 1000` (1 hour). -/
def RATE_LIMIT_WINDOW_MS : Int := 60 * 60 * 1000

/-- `RATE_LIMIT_MAX_PER_WINDOW = 300`. -/
def RATE_LIMIT_MAX_PER_WINDOW : Int := 300

/-- `CacheEntry = { value: any; expiresAt: number }`. -/
structure CacheEntry where
  value : RawUser
  expiresAt : Int
deriving DecidableEq

/-- The module-level `cache` map. -/
abbrev CacheMap := List (String × CacheEntry)

/-- `RateEntry = { count: number; windowStart: number }`. -/
structure RateEntry where
  count : Int
  windowStart : Int
deriving DecidableEq

/-- The module-level `rateMap`. -/
abbrev RateMap := List (String × RateEntry)

/-- `getFromCache` (lines 315–323): miss when absent; when present but
`now > expiresAt`, delete the entry and miss; otherwise hit.  Returns the
hit value together with the cache state after the call. -/
def getFromCache (cache : CacheMap) (now : Int) (fid : String) :
    Option RawUser × CacheMap :=
  match mfind cache fid with
  | none => (none, cache)
  | some e =>
    if now > e.expiresAt then (none, mdel cache fid)
    else (some e.value, cache)

/-- `setCache` (lines 324–326): unconditional overwrite with
`expiresAt = now + CACHE_TTL_MS`. -/
def setCache (fid : String) (value : RawUser) (now : Int) (cache : CacheMap) : CacheMap :=
  mset cache fid { value := value, expiresAt := now + CACHE_TTL_MS }

/-- `isRateLimited` (lines 355–371): fixed window.  No entry → create
`{count: 1, windowStart: now}` and admit; stale window → reset and admit;
otherwise increment and reject exactly when the incremented count exceeds
`RATE_LIMIT_MAX_PER_WINDOW` (the increment is stored even on rejection). -/
def isRateLimited (ip : String) (now : Int) (m : RateMap) : Bool × RateMap :=
  match mfind m ip with
  | none => (false, mset m ip { count := 1, windowStart := now })
  | some e =>
    if now - e.windowStart > RATE_LIMIT_WINDOW_MS then
      (false, mset m ip { count := 1, windowStart := now })
    else
      let e2 : RateEntry := { count := e.count + 1, windowStart := e.windowStart }
      (decide (e2.count > RATE_LIMIT_MAX_PER_WINDOW), mset m ip e2)

/-- The parsed JSON body of a 2xx upstream response:
either an array, or an object whose `users`/`data` fields may hold the
record list (`Array.isArray(json) ? json : json.users ?? json.data ?? []`,
line 440). -/
inductive JsonBody where
  | jarr (users : List RawUser)
  | jobj (users : Option (List RawUser)) (data : Option (List RawUser))
deriving DecidableEq

/-- `Array.isArray(json) ? json : json.users ?? json.data ?? []`. -/
def extractUsers : JsonBody → List RawUser
  | JsonBody.jarr l => l
  | JsonBody.jobj u d => ((u <|> d).getD [])

/-- The upstream response body as the route sees it after `resp.text()`:
either text that `JSON.parse` rejects, or a parsed JSON document. -/
inductive UpstreamBody where
  | malformed
  | parsed (j : JsonBody)
deriving DecidableEq

/-- What the `fetch` to Neynar delivers: a network failure (the promise
rejects, landing in the top-level `catch` of the route), or an HTTP response
with a status code and a body. -/
inductive Upstream where
  | netError
  | httpResp (status : Nat) (body : UpstreamBody)
deriving DecidableEq

/-- The module-level mutable state of the route: the cache map, the
rate-limiter map and the `creditsUsed` counter (lines 308, 311, 313). -/
structure ServerState where
  cache : CacheMap
  rateMap : RateMap
  creditsUsed : Int
deriving DecidableEq

/-- A fresh process: both maps empty, no credits used. -/
def freshState : ServerState := { cache := [], rateMap := [], creditsUsed := 0 }

/-- The observable outcomes of the route, one constructor per `return` site of
`GET` (each carries the data the response exposes beyond fixed text). -/
inductive ApiResult where
  /-- 500 `NEYNAR_API_KEY not set` (line 377). -/
  | configError
  /-- 400 `Missing query param: fid` (line 385). -/
  | missingFid
  /-- 400 `single numeric fid (digits only)` (line 388). -/
  | invalidFid
  /-- 429 `Rate limit exceeded` (line 397). -/
  | rateLimited
  /-- 402 with the caller-facing fallback link (lines 415–425). -/
  | quotaExceeded (fallback : String)
  /-- 401/403 `Neynar auth failed`, echoing the upstream status (line 429). -/
  | authFailed (status : Nat)
  /-- 502 `Neynar returned {status}` for other non-2xx (line 432). -/
  | upstreamError (upstreamStatus : Nat)
  /-- 502 `Invalid JSON from Neynar` (line 437). -/
  | invalidJson
  /-- 404 `Not found` for an empty user list (line 442). -/
  | notFound
  /-- 200 with the normalized profile; `hit` is the `X-Cache` header
  (`true` = `HIT`, line 406; `false` = `MISS`, line 453). -/
  | ok (profile : NormalizedProfile) (hit : Bool)
  /-- 500 `Internal server error` from the top-level `catch` (line 456) —
  the transport-error surface of the route. -/
  | internalError
deriving DecidableEq

/-- The HTTP status each outcome is sent with. -/
def httpStatusOf : ApiResult → Nat
  | ApiResult.configError => 500
  | ApiResult.missingFid => 400
  | ApiResult.invalidFid => 400
  | ApiResult.rateLimited => 429
  | ApiResult.quotaExceeded _ => 402
  | ApiResult.authFailed s => s
  | ApiResult.upstreamError _ => 502
  | ApiResult.invalidJson => 502
  | ApiResult.notFound => 404
  | ApiResult.ok _ _ => 200
  | ApiResult.internalError => 500

/-- The cache-miss tail of `GET` (lines 410–457): branch on the upstream
status, parse, take the first record, cache it under
`foundFid = String(user.fid ?? user.id ?? "")`, charge 2 credits,
normalize and return.  `fid` is all digits here, so
`encodeURIComponent(fid) = fid` in the fallback link. -/
def handleMiss (fid : String) (upstream : Upstream) (now : Int) (st : ServerState) :
    ApiResult × ServerState :=
  match upstream with
  | Upstream.netError => (ApiResult.internalError, st)
  | Upstream.httpResp status body =>
    if status = 402 then
      (ApiResult.quotaExceeded ("https://farcaster.xyz/" ++ fid), st)
    else if status = 401 ∨ status = 403 then
      (ApiResult.authFailed status, st)
    else if ¬ (200 ≤ status ∧ status < 300) then
      (ApiResult.upstreamError status, st)
    else
      match body with
      | UpstreamBody.malformed => (ApiResult.invalidJson, st)
      | UpstreamBody.parsed j =>
        match extractUsers j with
        | [] => (ApiResult.notFound, st)
        | u :: _ =>
          (ApiResult.ok (normalizeUser u) false,
           { st with
               cache := setCache (rawIdent u) u now st.cache,
               creditsUsed := st.creditsUsed + 2 })

/-- The `GET` handler (lines 373–458).  `apiKey` is
`process.env.NEYNAR_API_KEY`, `fidParam` the raw `fid` query parameter
(`none` when absent), `ip` the client key from `getClientIp`, `now` the
clock reading of the request, `upstream` what the network would deliver if
`fetch` runs.  Returns the response and the module state after the call. -/
def GET (apiKey : Option String) (fidParam : Option String) (ip : String)
    (now : Int) (upstream : Upstream) (st : ServerState) :
    ApiResult × ServerState :=
  match apiKey with
  | none => (ApiResult.configError, st)
  | some _ =>
    let fid := jsTrim (fidParam.getD "")
    if fid = "" then (ApiResult.missingFid, st)
    else if hasComma fid || !allDigits fid then (ApiResult.invalidFid, st)
    else
      let rl := isRateLimited ip now st.rateMap
      let st1 : ServerState := { st with rateMap := rl.snd }
      if rl.fst then (ApiResult.rateLimited, st1)
      else
        let cr := getFromCache st1.cache now fid
        let st2 : ServerState := { st1 with cache := cr.snd }
        match cr.fst with
        | some u => (ApiResult.ok (normalizeUser u) true, st2)
        | none => handleMiss fid upstream now st2

/-- The validity test the route enforces on the trimmed `fid`
(`/^\d+$/` plus the redundant comma check): non-empty and all digits. -/
def isNumericId (s : String) : Bool := !(s == "") && allDigits s

/-- Run `isRateLimited` for one client over a list of call times,
collecting the verdict of each call (`true` = rejected). -/
def rateSeq (ip : String) (ts : List Int) (m : RateMap) : List Bool × RateMap :=
  match ts with
  | [] => ([], m)
  | t :: rest =>
    let r := isRateLimited ip t m
    let s := rateSeq ip rest r.snd
    (r.fst :: s.fst, s.snd)

/-- The worked example record of the spec, section 8:
fid 2, display_name Alice, follower_count 10, everything else absent. -/
def uAlice : RawUser :=
  { fid := some (JVal.jnum 2), display_name := some "Alice", follower_count := some 10 }

/-- A 200 upstream response carrying `uAlice` in the `users` field. -/
def upAlice : Upstream :=
  Upstream.httpResp 200 (UpstreamBody.parsed (JsonBody.jobj (some [uAlice]) none))

/-- A record bearing no identifier field at all. -/
def uAnon : RawUser := { display_name := some "Bob" }

/-- A 200 upstream response carrying `uAnon` in the `users` field. -/
def upAnon : Upstream :=
  Upstream.httpResp 200 (UpstreamBody.parsed (JsonBody.jobj (some [uAnon]) none))

/-- A 200 upstream response with an empty `users` list. -/
def upEmpty : Upstream :=
  Upstream.httpResp 200 (UpstreamBody.parsed (JsonBody.jobj (some []) none))

/-- The record with every field absent. -/
def emptyRaw : RawUser := {}

/-- Record using alternate spellings: `display_name` and `pfp_url`,
with a numeric fid. -/
def uAlias : RawUser :=
  { fid := some (JVal.jnum 3), display_name := some "Alice",
    pfp_url := some "https://img.example/a.png" }

/-- The verdicts the fixed-window limiter produces for a client whose
stored count is `c` over a run of in-window calls: the k-th call of the
run is rejected exactly when `c + k` exceeds the per-window maximum. -/
def boolsFrom (c : Int) : Nat → List Bool
  | 0 => []
  | n + 1 => decide (c + 1 > RATE_LIMIT_MAX_PER_WINDOW) :: boolsFrom (c + 1) n

/-- Digit-only strings contain no comma, so the comma test of the
validation guard is redundant. -/
theorem digits_no_comma (s : String) (h : allDigits s = true) : hasComma s = false := by
  simp only [allDigits, hasComma, List.all_eq_true, List.any_eq] at *
  simp only [decide_eq_false_iff_not]
  push_neg
  intro x hmem
  have hd := h x hmem
  intro hx
  rw [decide_eq_true_eq] at hx
  subst hx
  simp [Char.isDigit] at hd

/-- Looking up the key just written by `mset` returns the written value. -/
theorem mfind_mset_self {β : Type} (m : List (String × β)) (k : String) (v : β) :
    mfind (mset m k v) k = some v := by
  induction m with
  | nil => simp [mset, mfind]
  | cons p rest ih =>
    obtain ⟨k1, v1⟩ := p
    by_cases h : k1 = k <;> simp [mset, mfind, h, ih]

/-- Looking up a key just removed by `mdel` misses. -/
theorem mfind_mdel_self {β : Type} (m : List (String × β)) (k : String) :
    mfind (mdel m k) k = none := by
  induction m with
  | nil => simp [mdel, mfind]
  | cons p rest ih =>
    obtain ⟨k1, v1⟩ := p
    by_cases h : k1 = k <;> simp [mdel, mfind, h, ih]

/-- Evaluation of `GET` past the key check and the validation guards:
with a configured key and a trimmed, non-empty, digit-only identifier the
route runs the rate check, then the cache check, then the miss handler. -/
theorem GET_valid_eq (k fid ip : String) (now : Int) (up : Upstream) (st : ServerState)
    (htrim : jsTrim fid = fid) (hne : fid ≠ "") (hdig : allDigits fid = true) :
    GET (some k) (some fid) ip now up st =
      (if (isRateLimited ip now st.rateMap).fst then
        (ApiResult.rateLimited, { st with rateMap := (isRateLimited ip now st.rateMap).snd })
      else
        match (getFromCache st.cache now fid).fst with
        | some u =>
          (ApiResult.ok (normalizeUser u) true,
           { st with rateMap := (isRateLimited ip now st.rateMap).snd,
                     cache := (getFromCache st.cache now fid).snd })
        | none =>
          handleMiss fid up now
            { st with rateMap := (isRateLimited ip now st.rateMap).snd,
                      cache := (getFromCache st.cache now fid).snd }) := by
  unfold GET
  simp only [Option.getD, htrim, hne, digits_no_comma fid hdig, hdig]
  simp

/-- Complete evaluation of a cache-miss lookup whose upstream call returns
2xx with a parsed body holding at least one record: the first record is
normalized and returned with `X-Cache: MISS`, the raw record is cached
under its own extracted identifier, and 2 credits are charged. -/
theorem GET_miss_success (k fid ip : String) (now : Int) (st : ServerState)
    (status : Nat) (j : JsonBody) (u : RawUser) (rest : List RawUser)
    (htrim : jsTrim fid = fid) (hne : fid ≠ "") (hdig : allDigits fid = true)
    (hrl : (isRateLimited ip now st.rateMap).fst = false)
    (hmiss : (getFromCache st.cache now fid).fst = none)
    (hok1 : 200 ≤ status) (hok2 : status < 300)
    (hus : extractUsers j = u :: rest) :
    GET (some k) (some fid) ip now (Upstream.httpResp status (UpstreamBody.parsed j)) st =
      (ApiResult.ok (normalizeUser u) false,
       { st with rateMap := (isRateLimited ip now st.rateMap).snd,
                 cache := setCache (rawIdent u) u now (getFromCache st.cache now fid).snd,
                 creditsUsed := st.creditsUsed + 2 }) := by
  rw [GET_valid_eq k fid ip now _ st htrim hne hdig]
  have h402 : status ≠ 402 := by omega
  have h401 : ¬ (status = 401 ∨ status = 403) := by omega
  have hin : 200 ≤ status ∧ status < 300 := ⟨hok1, hok2⟩
  simp [hrl, hmiss, handleMiss, h402, h401, hin, hus]

/-- Claim C1, counterexample to the 404 part: with a configured key, a
fresh state and a valid identifier, an upstream response of status 404
yields the 502 `Neynar returned 404` failure (`upstreamError`), not the
`notFound` failure the claim names. -/
theorem C1_counterexample :
    (GET (some "k") (some "2") "ip" 0 (Upstream.httpResp 404 UpstreamBody.malformed)
        freshState).fst
      = ApiResult.upstreamError 404 ∧
    (GET (some "k") (some "2") "ip" 0 (Upstream.httpResp 404 UpstreamBody.malformed)
        freshState).fst
      ≠ ApiResult.notFound := by decide

/-- Claim C1 (amended): for every lookup whose cache check misses, upstream
status 402 yields `quotaExceeded` carrying the fallback link built from the
identifier, 401 yields the auth failure, a network exception yields the
500 internal-error failure (the transport-error surface of the route) —
but upstream status 404 yields `upstreamError 404`, served as HTTP 502,
rather than `notFound`. -/
theorem C1_upstream_status_mapping (k fid ip : String) (now : Int) (st : ServerState)
    (htrim : jsTrim fid = fid) (hne : fid ≠ "") (hdig : allDigits fid = true)
    (hrl : (isRateLimited ip now st.rateMap).fst = false)
    (hmiss : (getFromCache st.cache now fid).fst = none) :
    (∀ b, (GET (some k) (some fid) ip now (Upstream.httpResp 402 b) st).fst
        = ApiResult.quotaExceeded ("https://farcaster.xyz/" ++ fid)) ∧
    (∀ b, (GET (some k) (some fid) ip now (Upstream.httpResp 401 b) st).fst
        = ApiResult.authFailed 401) ∧
    (∀ b, (GET (some k) (some fid) ip now (Upstream.httpResp 404 b) st).fst
        = ApiResult.upstreamError 404) ∧
    ((GET (some k) (some fid) ip now Upstream.netError st).fst = ApiResult.internalError) ∧
    httpStatusOf (ApiResult.upstreamError 404) = 502 := by
  refine ⟨?_, ?_, ?_, ?_, rfl⟩ <;>
    first
    | (intro b
       rw [GET_valid_eq k fid ip now _ st htrim hne hdig]
       simp [hrl, hmiss, handleMiss])
    | (rw [GET_valid_eq k fid ip now _ st htrim hne hdig]
       simp [hrl, hmiss, handleMiss])

/-- Claim C1, witness: the amended mapping instantiated at identifier 2,
a fresh state and time 0. -/
theorem C1_witness :
    (GET (some "k") (some "2") "ip" 0 (Upstream.httpResp 402 UpstreamBody.malformed)
        freshState).fst
      = ApiResult.quotaExceeded "https://farcaster.xyz/2" ∧
    (GET (some "k") (some "2") "ip" 0 (Upstream.httpResp 401 UpstreamBody.malformed)
        freshState).fst
      = ApiResult.authFailed 401 ∧
    (GET (some "k") (some "2") "ip" 0 Upstream.netError freshState).fst
      = ApiResult.internalError := by
  have h := C1_upstream_status_mapping "k" "2" "ip" 0 freshState (by decide) (by decide)
    (by decide) rfl rfl
  refine ⟨?_, h.2.1 UpstreamBody.malformed, h.2.2.2.1⟩
  rw [h.1 UpstreamBody.malformed]
  decide

/-- Claim C2, counterexample to the `UpstreamMalformed` part: a first
record bearing no identifier field does not fail the lookup — the route
returns 200 with an empty-string identifier and caches the record under
the empty-string key. -/
theorem C2_counterexample :
    (GET (some "k") (some "7") "ip" 0 upAnon freshState).fst
      = ApiResult.ok (normalizeUser uAnon) false ∧
    (normalizeUser uAnon).fid = "" ∧
    mfind (GET (some "k") (some "7") "ip" 0 upAnon freshState).snd.cache ""
      = some { value := uAnon, expiresAt := CACHE_TTL_MS } := by decide

/-- Claim C2 (amended): on a miss whose upstream call succeeds with a
non-empty record list, the orchestrator takes the first record, computes
its identifier as `String(user.fid ?? user.id ?? "")` (the empty string
when both are absent — there is no `UpstreamMalformed` failure), caches
the raw record under that returned identifier, charges 2 credits, and
returns the normalized record. -/
theorem C2_first_record_cached (k fid ip : String) (now : Int) (st : ServerState)
    (status : Nat) (j : JsonBody) (u : RawUser) (rest : List RawUser)
    (htrim : jsTrim fid = fid) (hne : fid ≠ "") (hdig : allDigits fid = true)
    (hrl : (isRateLimited ip now st.rateMap).fst = false)
    (hmiss : (getFromCache st.cache now fid).fst = none)
    (hok1 : 200 ≤ status) (hok2 : status < 300)
    (hus : extractUsers j = u :: rest) :
    GET (some k) (some fid) ip now (Upstream.httpResp status (UpstreamBody.parsed j)) st =
      (ApiResult.ok (normalizeUser u) false,
       { st with rateMap := (isRateLimited ip now st.rateMap).snd,
                 cache := setCache (rawIdent u) u now (getFromCache st.cache now fid).snd,
                 creditsUsed := st.creditsUsed + 2 }) ∧
    mfind (GET (some k) (some fid) ip now
        (Upstream.httpResp status (UpstreamBody.parsed j)) st).snd.cache (rawIdent u)
      = some { value := u, expiresAt := now + CACHE_TTL_MS } := by
  have h := GET_miss_success k fid ip now st status j u rest htrim hne hdig hrl hmiss
    hok1 hok2 hus
  refine ⟨h, ?_⟩
  rw [h]
  simpa [setCache] using
    mfind_mset_self (getFromCache st.cache now fid).snd (rawIdent u)
      { value := u, expiresAt := now + CACHE_TTL_MS }

/-- Claim C2, witness: the amended behaviour instantiated at identifier 7
with a record that has no identifier field. -/
theorem C2_witness :
    GET (some "k") (some "7") "ip" 0 upAnon freshState =
      (ApiResult.ok (normalizeUser uAnon) false,
       { freshState with
           rateMap := (isRateLimited "ip" 0 freshState.rateMap).snd,
           cache := setCache (rawIdent uAnon) uAnon 0 (getFromCache freshState.cache 0 "7").snd,
           creditsUsed := freshState.creditsUsed + 2 }) ∧
    mfind (GET (some "k") (some "7") "ip" 0 upAnon freshState).snd.cache (rawIdent uAnon)
      = some { value := uAnon, expiresAt := 0 + CACHE_TTL_MS } := by
  exact C2_first_record_cached "k" "7" "ip" 0 freshState 200
    (JsonBody.jobj (some [uAnon]) none) uAnon [] (by decide) (by decide) (by decide)
    rfl rfl (by omega) (by omega) rfl

/-- Claim C3, counterexample to the literal reading: the input `" 2"` does
not match `^\d+$`, yet the lookup succeeds (the route trims the parameter
first) and mutates the rate-limiter map. -/
theorem C3_counterexample :
    (GET (some "k") (some " 2") "ip" 0 upAlice freshState).fst
      = ApiResult.ok (normalizeUser uAlice) false ∧
    (GET (some "k") (some " 2") "ip" 0 upAlice freshState).snd.rateMap ≠ [] := by decide

/-- Claim C3 (amended): for every request whose TRIMMED identifier does not
match `^\d+$` (empty, letters, comma lists), the route answers with one of
the two 400 invalid-input failures, the whole server state (cache,
rate-limiter map, credit counter) is unchanged, and the upstream is never
consulted (the outcome is the same for every upstream behaviour). -/
theorem C3_invalid_input (k : String) (fidParam : Option String) (ip : String) (now : Int)
    (up : Upstream) (st : ServerState)
    (h : isNumericId (jsTrim (fidParam.getD "")) = false) :
    (GET (some k) fidParam ip now up st).snd = st ∧
    ((GET (some k) fidParam ip now up st).fst = ApiResult.missingFid ∨
      (GET (some k) fidParam ip now up st).fst = ApiResult.invalidFid) ∧
    (∀ up2, GET (some k) fidParam ip now up2 st = GET (some k) fidParam ip now up st) := by
  unfold GET
  by_cases hfe : jsTrim (fidParam.getD "") = ""
  · simp [hfe]
  · have hdig : allDigits (jsTrim (fidParam.getD "")) = false := by
      simp [isNumericId, hfe] at h
      exact h
    simp [hfe, hdig]

/-- Claim C3, witness: the invalid input `abc` leaves the state unchanged
and is rejected with a 400 failure. -/
theorem C3_witness :
    (GET (some "k") (some "abc") "ip" 0 upAlice freshState).snd = freshState ∧
    ((GET (some "k") (some "abc") "ip" 0 upAlice freshState).fst = ApiResult.missingFid ∨
      (GET (some "k") (some "abc") "ip" 0 upAlice freshState).fst = ApiResult.invalidFid) := by
  have h := C3_invalid_input "k" (some "abc") "ip" 0 upAlice freshState (by decide)
  exact ⟨h.1, h.2.1⟩

/-- Counting lemma for the fixed-window limiter: over a run of calls that
all fall inside the window of the stored entry, the verdicts are exactly
`boolsFrom` of the stored count, and the window start never moves. -/
theorem rateSeq_inwindow (ip : String) (w : Int) :
    ∀ (ts : List Int) (c : Int) (m : RateMap),
      mfind m ip = some { count := c, windowStart := w } →
      (∀ t ∈ ts, t - w ≤ RATE_LIMIT_WINDOW_MS) →
      (rateSeq ip ts m).fst = boolsFrom c ts.length := by
  intro ts
  induction ts with
  | nil => intro c m h hw; rfl
  | cons t rest ih =>
    intro c m h hw
    have hwt : ¬ (t - w > RATE_LIMIT_WINDOW_MS) := by
      have := hw t (List.mem_cons_self t rest)
      omega
    have step : isRateLimited ip t m
        = (decide (c + 1 > RATE_LIMIT_MAX_PER_WINDOW),
           mset m ip { count := c + 1, windowStart := w }) := by
      simp [isRateLimited, h, hwt]
    have hfind : mfind (mset m ip { count := c + 1, windowStart := w }) ip
        = some { count := c + 1, windowStart := w } := mfind_mset_self m ip _
    have hrest : ∀ x ∈ rest, x - w ≤ RATE_LIMIT_WINDOW_MS := by
      intro x hx; exact hw x (List.mem_cons_of_mem t hx)
    have tail := ih (c + 1) (mset m ip { count := c + 1, windowStart := w }) hfind hrest
    show ((isRateLimited ip t m).fst ::
        (rateSeq ip rest (isRateLimited ip t m).snd).fst) = boolsFrom c (rest.length + 1)
    rw [step]
    show decide (c + 1 > RATE_LIMIT_MAX_PER_WINDOW) ::
        (rateSeq ip rest (mset m ip { count := c + 1, windowStart := w })).fst = _
    rw [tail]
    rfl

set_option maxRecDepth 8000 in
/-- Claim C4: the limiter is the stated fixed-window algorithm — fresh key
creates count 1 and admits; a stale window resets to count 1 and admits;
otherwise the count is incremented (also on rejection) and the call is
admitted exactly when the new count stays within the maximum.
Consequently 301 calls of one client inside one window are admitted for
the first 300 and rejected exactly on the 301st, a call after the window
has elapsed is admitted again, and `GET` answers 429 exactly when the
limiter rejects. -/
theorem C4_fixed_window (ip : String) :
    (∀ (m : RateMap) (now : Int), mfind m ip = none →
        isRateLimited ip now m = (false, mset m ip { count := 1, windowStart := now })) ∧
    (∀ (m : RateMap) (now : Int) (e : RateEntry), mfind m ip = some e →
        now - e.windowStart > RATE_LIMIT_WINDOW_MS →
        isRateLimited ip now m = (false, mset m ip { count := 1, windowStart := now })) ∧
    (∀ (m : RateMap) (now : Int) (e : RateEntry), mfind m ip = some e →
        now - e.windowStart ≤ RATE_LIMIT_WINDOW_MS →
        isRateLimited ip now m
          = (decide (e.count + 1 > RATE_LIMIT_MAX_PER_WINDOW),
             mset m ip { count := e.count + 1, windowStart := e.windowStart })) ∧
    (∀ (m : RateMap) (t1 : Int) (rest : List Int), mfind m ip = none →
        rest.length = 300 → (∀ t ∈ rest, t - t1 ≤ RATE_LIMIT_WINDOW_MS) →
        (rateSeq ip (t1 :: rest) m).fst = List.replicate 300 false ++ [true]) ∧
    (∀ (k fid : String) (now : Int) (up : Upstream) (st : ServerState),
        jsTrim fid = fid → fid ≠ "" → allDigits fid = true →
        (isRateLimited ip now st.rateMap).fst = true →
        GET (some k) (some fid) ip now up st
          = (ApiResult.rateLimited,
             { st with rateMap := (isRateLimited ip now st.rateMap).snd })) := by
  refine ⟨?_, ?_, ?_, ?_, ?_⟩
  · intro m now h
    simp [isRateLimited, h]
  · intro m now e h hgt
    simp [isRateLimited, h, hgt]
  · intro m now e h hle
    have : ¬ (now - e.windowStart > RATE_LIMIT_WINDOW_MS) := by omega
    simp [isRateLimited, h, this]
  · intro m t1 rest h hlen hw
    have step : isRateLimited ip t1 m
        = (false, mset m ip { count := 1, windowStart := t1 }) := by
      simp [isRateLimited, h]
    have hfind : mfind (mset m ip { count := 1, windowStart := t1 }) ip
        = some { count := 1, windowStart := t1 } := mfind_mset_self m ip _
    have tail := rateSeq_inwindow ip t1 rest 1
      (mset m ip { count := 1, windowStart := t1 }) hfind hw
    show ((isRateLimited ip t1 m).fst ::
        (rateSeq ip rest (isRateLimited ip t1 m).snd).fst) = _
    rw [step]
    show false :: (rateSeq ip rest (mset m ip { count := 1, windowStart := t1 })).fst = _
    rw [tail, hlen]
    have : boolsFrom 1 300 = List.replicate 299 false ++ [true] := by decide
    rw [this]
    rfl
  · intro k fid now up st htrim hne hdig hrl
    rw [GET_valid_eq k fid ip now up st htrim hne hdig]
    simp [hrl]

set_option maxRecDepth 8000 in
/-- Claim C4, witness: the limiter at client `a` — first call admitted
with count 1; 301 calls at time 0 rejected exactly on the 301st; a call
one millisecond past the window admitted again with a reset counter. -/
theorem C4_witness :
    isRateLimited "a" 0 [] = (false, [("a", { count := 1, windowStart := 0 })]) ∧
    (rateSeq "a" (List.replicate 301 0) []).fst = List.replicate 300 false ++ [true] ∧
    isRateLimited "a" (RATE_LIMIT_WINDOW_MS + 1) [("a", { count := 301, windowStart := 0 })]
      = (false, [("a", { count := 1, windowStart := RATE_LIMIT_WINDOW_MS + 1 })]) := by
  refine ⟨?_, ?_, ?_⟩
  · exact (C4_fixed_window "a").1 [] 0 rfl
  · have h := (C4_fixed_window "a").2.2.2.1 [] 0 (List.replicate 300 0) rfl
      (by decide) ?_
    · exact h
    · intro t ht
      rw [List.eq_of_mem_replicate ht]
      decide
  · have h := (C4_fixed_window "a").2.1 [("a", { count := 301, windowStart := 0 })]
      (RATE_LIMIT_WINDOW_MS + 1) { count := 301, windowStart := 0 } rfl (by decide)
    simpa [mset] using h

/-- Claim C5: `getFromCache` misses exactly when the key is absent or
`now > expiresAt`; reading an expired entry deletes it as a side effect;
`setCache` overwrites unconditionally with `expiresAt = now + CACHE_TTL_MS`;
and a lookup at `now = expiresAt + 1` on a populated cache goes down the
miss path and serves a fresh upstream record with `X-Cache: MISS`. -/
theorem C5_cache_semantics :
    (∀ (cache : CacheMap) (now : Int) (fid : String),
        (getFromCache cache now fid).fst = none ↔
          (mfind cache fid = none ∨ ∃ e, mfind cache fid = some e ∧ now > e.expiresAt)) ∧
    (∀ (cache : CacheMap) (now : Int) (fid : String) (e : CacheEntry),
        mfind cache fid = some e → now > e.expiresAt →
        getFromCache cache now fid = (none, mdel cache fid) ∧
        mfind (getFromCache cache now fid).snd fid = none) ∧
    (∀ (cache : CacheMap) (now : Int) (fid : String) (e : CacheEntry),
        mfind cache fid = some e → ¬ (now > e.expiresAt) →
        getFromCache cache now fid = (some e.value, cache)) ∧
    (∀ (cache : CacheMap) (now : Int) (fid : String) (v : RawUser),
        mfind (setCache fid v now cache) fid
          = some { value := v, expiresAt := now + CACHE_TTL_MS }) ∧
    (∀ (k fid ip : String) (st : ServerState) (e : CacheEntry) (status : Nat)
        (j : JsonBody) (u : RawUser) (rest : List RawUser),
        jsTrim fid = fid → fid ≠ "" → allDigits fid = true →
        (isRateLimited ip (e.expiresAt + 1) st.rateMap).fst = false →
        mfind st.cache fid = some e →
        200 ≤ status → status < 300 → extractUsers j = u :: rest →
        (GET (some k) (some fid) ip (e.expiresAt + 1)
            (Upstream.httpResp status (UpstreamBody.parsed j)) st).fst
          = ApiResult.ok (normalizeUser u) false) := by
  refine ⟨?_, ?_, ?_, ?_, ?_⟩
  · intro cache now fid
    unfold getFromCache
    cases h : mfind cache fid with
    | none => simp [h]
    | some e =>
      by_cases hx : now > e.expiresAt
      · simp [h, hx]
      · simp [h, hx]
  · intro cache now fid e h hx
    refine ⟨?_, ?_⟩ <;> simp [getFromCache, h, hx, mfind_mdel_self]
  · intro cache now fid e h hx
    simp [getFromCache, h, hx]
  · intro cache now fid v
    simpa [setCache] using
      mfind_mset_self cache fid { value := v, expiresAt := now + CACHE_TTL_MS }
  · intro k fid ip st e status j u rest htrim hne hdig hrl hfind hok1 hok2 hus
    have hmiss : (getFromCache st.cache (e.expiresAt + 1) fid).fst = none := by
      simp [getFromCache, hfind, show e.expiresAt + 1 > e.expiresAt by omega]
    rw [GET_miss_success k fid ip (e.expiresAt + 1) st status j u rest htrim hne hdig
      hrl hmiss hok1 hok2 hus]

/-- Claim C5, witness: a cache entry expiring at 10 read at 11 misses and
is evicted; read at 10 hits; a fresh `setCache` write is readable; and the
full lookup at 11 serves the upstream record with `X-Cache: MISS`. -/
theorem C5_witness :
    getFromCache [("2", { value := uAlice, expiresAt := 10 })] 11 "2"
      = (none, []) ∧
    getFromCache [("2", { value := uAlice, expiresAt := 10 })] 10 "2"
      = (some uAlice, [("2", { value := uAlice, expiresAt := 10 })]) ∧
    mfind (setCache "2" uAlice 0 []) "2"
      = some { value := uAlice, expiresAt := 0 + CACHE_TTL_MS } ∧
    (GET (some "k") (some "2") "ip" 11 upAlice
        { cache := [("2", { value := uAlice, expiresAt := 10 })], rateMap := [],
          creditsUsed := 0 }).fst
      = ApiResult.ok (normalizeUser uAlice) false := by
  refine ⟨?_, ?_, ?_, ?_⟩
  · exact ((C5_cache_semantics.2.1 [("2", { value := uAlice, expiresAt := 10 })] 11 "2"
      { value := uAlice, expiresAt := 10 } rfl (by decide)).1).trans (by decide)
  · exact C5_cache_semantics.2.2.1 [("2", { value := uAlice, expiresAt := 10 })] 10 "2"
      { value := uAlice, expiresAt := 10 } rfl (by decide)
  · exact C5_cache_semantics.2.2.2.1 [] 0 "2" uAlice
  · exact C5_cache_semantics.2.2.2.2 "k" "2" "ip"
      { cache := [("2", { value := uAlice, expiresAt := 10 })], rateMap := [],
        creditsUsed := 0 }
      { value := uAlice, expiresAt := 10 } 200 (JsonBody.jobj (some [uAlice]) none) uAlice []
      (by decide) (by decide) (by decide) rfl rfl (by omega) (by omega) rfl

/-- Claim C6, counterexample: for requested identifier `02` the upstream
record carries fid 2, so the route caches under key `2`; the second lookup
for `02` within the TTL misses again — it returns `X-Cache: MISS` and its
outcome still depends on the upstream (a network failure turns it into a
500), so the second lookup does call the upstream. -/
theorem C6_counterexample :
    (GET (some "k") (some "02") "ip" 0 upAlice freshState).fst
      = ApiResult.ok (normalizeUser uAlice) false ∧
    (GET (some "k") (some "02") "ip" 1 upAlice
        (GET (some "k") (some "02") "ip" 0 upAlice freshState).snd).fst
      = ApiResult.ok (normalizeUser uAlice) false ∧
    (GET (some "k") (some "02") "ip" 1 Upstream.netError
        (GET (some "k") (some "02") "ip" 0 upAlice freshState).snd).fst
      = ApiResult.internalError := by decide

/-- Claim C6 (amended): PROVIDED the identifier extracted from the returned
record equals the requested identifier string, two consecutive admitted
lookups for it within the TTL window return the same normalized profile —
the second one from the cache (`X-Cache: HIT`), with an outcome that does
not depend on the upstream at all. -/
theorem C6_idempotent_within_ttl (k fid ip : String) (t1 t2 : Int) (st : ServerState)
    (status : Nat) (j : JsonBody) (u : RawUser) (rest : List RawUser)
    (htrim : jsTrim fid = fid) (hne : fid ≠ "") (hdig : allDigits fid = true)
    (hrl1 : (isRateLimited ip t1 st.rateMap).fst = false)
    (hmiss : (getFromCache st.cache t1 fid).fst = none)
    (hok1 : 200 ≤ status) (hok2 : status < 300)
    (hus : extractUsers j = u :: rest)
    (hid : rawIdent u = fid)
    (ht2 : t2 ≤ t1 + CACHE_TTL_MS)
    (hrl2 : (isRateLimited ip t2
        ((GET (some k) (some fid) ip t1
            (Upstream.httpResp status (UpstreamBody.parsed j)) st).snd).rateMap).fst
      = false) :
    (GET (some k) (some fid) ip t1
        (Upstream.httpResp status (UpstreamBody.parsed j)) st).fst
      = ApiResult.ok (normalizeUser u) false ∧
    (∀ up2, (GET (some k) (some fid) ip t2 up2
        (GET (some k) (some fid) ip t1
            (Upstream.httpResp status (UpstreamBody.parsed j)) st).snd).fst
      = ApiResult.ok (normalizeUser u) true) ∧
    (∀ up2 up3, GET (some k) (some fid) ip t2 up2
        (GET (some k) (some fid) ip t1
            (Upstream.httpResp status (UpstreamBody.parsed j)) st).snd
      = GET (some k) (some fid) ip t2 up3
        (GET (some k) (some fid) ip t1
            (Upstream.httpResp status (UpstreamBody.parsed j)) st).snd) := by
  have h1 := GET_miss_success k fid ip t1 st status j u rest htrim hne hdig hrl1 hmiss
    hok1 hok2 hus
  have hcache : (GET (some k) (some fid) ip t1
      (Upstream.httpResp status (UpstreamBody.parsed j)) st).snd.cache
        = mset (getFromCache st.cache t1 fid).snd fid
            { value := u, expiresAt := t1 + CACHE_TTL_MS } := by
    rw [h1]
    simp [setCache, hid]
  have hhit : (getFromCache (GET (some k) (some fid) ip t1
      (Upstream.httpResp status (UpstreamBody.parsed j)) st).snd.cache t2 fid).fst
        = some u := by
    rw [hcache]
    simp [getFromCache, mfind_mset_self, show ¬ (t2 > t1 + CACHE_TTL_MS) by omega]
  refine ⟨by rw [h1], ?_, ?_⟩
  · intro up2
    rw [GET_valid_eq k fid ip t2 up2 _ htrim hne hdig]
    simp [hrl2, hhit]
  · intro up2 up3
    rw [GET_valid_eq k fid ip t2 up2 _ htrim hne hdig,
      GET_valid_eq k fid ip t2 up3 _ htrim hne hdig]
    simp [hrl2, hhit]

/-- Claim C6, witness: identifier `2` (whose returned record also extracts
to `2`) — the first lookup is a MISS, the second within the TTL a HIT with
the same profile, even against a differently behaving upstream. -/
theorem C6_witness :
    (GET (some "k") (some "2") "ip" 0 upAlice freshState).fst
      = ApiResult.ok (normalizeUser uAlice) false ∧
    (GET (some "k") (some "2") "ip" 1 upEmpty
        (GET (some "k") (some "2") "ip" 0 upAlice freshState).snd).fst
      = ApiResult.ok (normalizeUser uAlice) true := by
  have h := C6_idempotent_within_ttl "k" "2" "ip" 0 1 freshState 200
    (JsonBody.jobj (some [uAlice]) none) uAlice []
    (by decide) (by decide) (by decide) rfl rfl (by omega) (by omega) rfl (by decide)
    (by decide) (by decide)
  exact ⟨h.1, h.2.1 upEmpty⟩

/-- Claim C7, counterexample to the non-empty-identifier part: on the
record with every field absent, `normalizeUser` still succeeds, every
optional field is absent, but the identifier is the EMPTY string. -/
theorem C7_counterexample :
    (normalizeUser emptyRaw).fid = "" ∧
    (normalizeUser emptyRaw).displayName = none ∧
    (normalizeUser emptyRaw).username = none ∧
    (normalizeUser emptyRaw).avatarUrl = none ∧
    (normalizeUser emptyRaw).bio = none ∧
    (normalizeUser emptyRaw).followerCount = none := by decide

/-- Claim C7 (amended): `normalizeUser` is a total pure function — alternate
spellings populate the target fields first-present-wins (`display_name`
fills `displayName` when the canonical key is absent, `pfp_url` fills
`avatarUrl`); the identifier is taken verbatim from `fid` via `String(...)`;
when none of the known alternates is present each target field is absent
and the identifier degrades to the EMPTY string (not a non-empty one)
whenever `fid` and `id` are both missing. -/
theorem C7_normalize_aliases (u : RawUser) (s t : String) (v : JVal) :
    (u.displayName = none → u.display_name = some s →
      (normalizeUser u).displayName = some s) ∧
    (u.pfp_url = some t → (normalizeUser u).avatarUrl = some t) ∧
    (u.fid = some v → (normalizeUser u).fid = jvalToString v) ∧
    (u.displayName = none → u.display_name = none → u.name = none →
      (normalizeUser u).displayName = none) ∧
    (u.username = none → u.handle = none → (normalizeUser u).username = none) ∧
    (u.pfp_url = none → u.avatar_url = none → u.profile_pfp_url = none →
      u.raw_profile_pfp_url = none → (normalizeUser u).avatarUrl = none) ∧
    (u.bio = none → u.profile_bio_text = none → u.raw_profile_bio_text = none →
      (normalizeUser u).bio = none) ∧
    (u.follower_count = none → u.followersCount = none →
      u.raw_profile_follower_count = none → (normalizeUser u).followerCount = none) ∧
    (u.fid = none → u.id = none → (normalizeUser u).fid = "") := by
  refine ⟨?_, ?_, ?_, ?_, ?_, ?_, ?_, ?_, ?_⟩ <;>
    (intros; simp_all [normalizeUser, rawIdent])

/-- Claim C7, witness: the alias record (`display_name`, `pfp_url`, numeric
fid) is normalized with those fields populated, and the empty record keeps
`bio` absent. -/
theorem C7_witness :
    (normalizeUser uAlias).displayName = some "Alice" ∧
    (normalizeUser uAlias).avatarUrl = some "https://img.example/a.png" ∧
    (normalizeUser uAlias).fid = jvalToString (JVal.jnum 3) ∧
    (normalizeUser emptyRaw).bio = none := by
  have h := C7_normalize_aliases uAlias "Alice" "https://img.example/a.png" (JVal.jnum 3)
  have h2 := C7_normalize_aliases emptyRaw "" "" (JVal.jnum 0)
  exact ⟨h.1 rfl rfl, h.2.1 rfl, h.2.2.1 rfl, h2.2.2.2.2.2.2.1 rfl rfl rfl⟩

/-- Dichotomy for the miss handler: it either returns a fresh 200 `MISS`
success and charges exactly 2 credits, or leaves the state untouched and
returns something other than a `MISS` success. -/
theorem handleMiss_credits (fid : String) (up : Upstream) (now : Int) (st : ServerState) :
    ((∃ p, (handleMiss fid up now st).fst = ApiResult.ok p false) ∧
      (handleMiss fid up now st).snd.creditsUsed = st.creditsUsed + 2) ∨
    ((∀ p, (handleMiss fid up now st).fst ≠ ApiResult.ok p false) ∧
      (handleMiss fid up now st).snd = st) := by
  cases up with
  | netError => exact Or.inr ⟨fun p => by simp [handleMiss], rfl⟩
  | httpResp status body =>
    by_cases h1 : status = 402
    · refine Or.inr ⟨?_, ?_⟩ <;> simp [handleMiss, h1]
    · by_cases h2 : status = 401 ∨ status = 403
      · refine Or.inr ⟨?_, ?_⟩ <;> simp [handleMiss, h1, h2]
      · by_cases h3 : 200 ≤ status ∧ status < 300
        · cases body with
          | malformed => refine Or.inr ⟨?_, ?_⟩ <;> simp [handleMiss, h1, h2, h3]
          | parsed j =>
            cases hus : extractUsers j with
            | nil => refine Or.inr ⟨?_, ?_⟩ <;> simp [handleMiss, h1, h2, h3, hus]
            | cons u rest =>
              refine Or.inl ⟨⟨normalizeUser u, ?_⟩, ?_⟩ <;>
                simp [handleMiss, h1, h2, h3, hus]
        · refine Or.inr ⟨?_, ?_⟩ <;> simp [handleMiss, h1, h2, h3]

/-- The response of the miss handler does not depend on the incoming
module state. -/
theorem handleMiss_fst_state_free (fid : String) (up : Upstream) (now : Int)
    (st1 st2 : ServerState) :
    (handleMiss fid up now st1).fst = (handleMiss fid up now st2).fst := by
  cases up with
  | netError => rfl
  | httpResp status body =>
    by_cases h1 : status = 402
    · simp [handleMiss, h1]
    · by_cases h2 : status = 401 ∨ status = 403
      · simp [handleMiss, h1, h2]
      · by_cases h3 : 200 ≤ status ∧ status < 300
        · cases body with
          | malformed => simp [handleMiss, h1, h2, h3]
          | parsed j =>
            cases hus : extractUsers j with
            | nil => simp [handleMiss, h1, h2, h3, hus]
            | cons u rest => simp [handleMiss, h1, h2, h3, hus]
        · simp [handleMiss, h1, h2, h3]

/-- Dichotomy for `GET`: every lookup either ends in a fresh 200 `MISS`
success with exactly 2 credits charged, or leaves the credit counter
untouched. -/
theorem GET_credits_dichotomy (k : String) (fidParam : Option String) (ip : String)
    (now : Int) (up : Upstream) (st : ServerState) :
    ((∃ p, (GET (some k) fidParam ip now up st).fst = ApiResult.ok p false) ∧
      (GET (some k) fidParam ip now up st).snd.creditsUsed = st.creditsUsed + 2) ∨
    ((∀ p, (GET (some k) fidParam ip now up st).fst ≠ ApiResult.ok p false) ∧
      (GET (some k) fidParam ip now up st).snd.creditsUsed = st.creditsUsed) := by
  unfold GET
  by_cases hfe : jsTrim (fidParam.getD "") = ""
  · refine Or.inr ⟨?_, ?_⟩ <;> simp [hfe]
  · by_cases hg : (hasComma (jsTrim (fidParam.getD ""))
        || !allDigits (jsTrim (fidParam.getD ""))) = true
    · refine Or.inr ⟨?_, ?_⟩ <;> simp [hfe, hg]
    · by_cases hrl : (isRateLimited ip now st.rateMap).fst = true
      · refine Or.inr ⟨?_, ?_⟩ <;> simp [hfe, hg, hrl]
      · cases hcr : (getFromCache st.cache now (jsTrim (fidParam.getD ""))).fst with
        | some u =>
          refine Or.inr ⟨?_, ?_⟩ <;> simp [hfe, hg, hrl, hcr]
        | none =>
          rcases handleMiss_credits (jsTrim (fidParam.getD "")) up now
              { st with
                  rateMap := (isRateLimited ip now st.rateMap).snd,
                  cache := (getFromCache st.cache now (jsTrim (fidParam.getD ""))).snd }
            with ⟨⟨p, hp⟩, hc⟩ | ⟨hp, hc⟩
          · refine Or.inl ⟨⟨p, ?_⟩, ?_⟩ <;> simp [hfe, hg, hrl, hcr, hp, hc]
          · refine Or.inr ⟨?_, ?_⟩ <;> simp [hfe, hg, hrl, hcr, hp, hc]

/-- The response of `GET` is independent of the credit counter. -/
theorem GET_fst_credits_free (k : String) (fidParam : Option String) (ip : String)
    (now : Int) (up : Upstream) (st : ServerState) (c : Int) :
    (GET (some k) fidParam ip now up { st with creditsUsed := c }).fst
      = (GET (some k) fidParam ip now up st).fst := by
  unfold GET
  by_cases hfe : jsTrim (fidParam.getD "") = ""
  · simp [hfe]
  · by_cases hg : (hasComma (jsTrim (fidParam.getD ""))
        || !allDigits (jsTrim (fidParam.getD ""))) = true
    · simp [hfe, hg]
    · by_cases hrl : (isRateLimited ip now st.rateMap).fst = true
      · simp [hfe, hg, hrl]
      · cases hcr : (getFromCache st.cache now (jsTrim (fidParam.getD ""))).fst with
        | some u => simp [hfe, hg, hrl, hcr]
        | none =>
          simp [hfe, hg, hrl, hcr]
          exact handleMiss_fst_state_free _ up now _ _

/-- Claim C8 (amended): the credit counter is bumped by exactly 2 precisely
on lookups that end in a fresh 200 `MISS` success (an upstream call that
succeeded with a non-empty record list); every other lookup — including an
upstream 200 with an EMPTY record list — leaves it unchanged; and the
counter is never consulted: the response is the same for every counter
value, so it has no enforcement effect. -/
theorem C8_credits_advisory (k : String) (fidParam : Option String) (ip : String)
    (now : Int) (up : Upstream) (st : ServerState) :
    ((∃ p, (GET (some k) fidParam ip now up st).fst = ApiResult.ok p false) →
      (GET (some k) fidParam ip now up st).snd.creditsUsed = st.creditsUsed + 2) ∧
    ((∀ p, (GET (some k) fidParam ip now up st).fst ≠ ApiResult.ok p false) →
      (GET (some k) fidParam ip now up st).snd.creditsUsed = st.creditsUsed) ∧
    (∀ c, (GET (some k) fidParam ip now up { st with creditsUsed := c }).fst
      = (GET (some k) fidParam ip now up st).fst) := by
  refine ⟨?_, ?_, fun c => GET_fst_credits_free k fidParam ip now up st c⟩
  · rintro ⟨p, hp⟩
    rcases GET_credits_dichotomy k fidParam ip now up st with ⟨_, hc⟩ | ⟨hno, _⟩
    · exact hc
    · exact absurd hp (hno p)
  · intro hno
    rcases GET_credits_dichotomy k fidParam ip now up st with ⟨⟨p, hp⟩, _⟩ | ⟨_, hc⟩
    · exact absurd hp (hno p)
    · exact hc

/-- Claim C8, counterexample: an upstream call that succeeds (HTTP 200,
well-formed body) but returns an empty record list leaves the credit
counter unchanged, against the per-successful-call reading of the claim. -/
theorem C8_counterexample :
    (GET (some "k") (some "2") "ip" 0 upEmpty freshState).fst = ApiResult.notFound ∧
    (GET (some "k") (some "2") "ip" 0 upEmpty freshState).snd.creditsUsed
      = freshState.creditsUsed := by decide

/-- Claim C8, witness: a record-bearing success charges 2 credits, a
network failure charges none, and the response is unaffected by a
pre-existing counter value of 42. -/
theorem C8_witness :
    (GET (some "k") (some "2") "ip" 0 upAlice freshState).snd.creditsUsed
      = freshState.creditsUsed + 2 ∧
    (GET (some "k") (some "5") "ip" 0 Upstream.netError freshState).snd.creditsUsed
      = freshState.creditsUsed ∧
    (GET (some "k") (some "2") "ip" 0 upAlice
        { freshState with creditsUsed := 42 }).fst
      = (GET (some "k") (some "2") "ip" 0 upAlice freshState).fst := by
  have h5 : (GET (some "k") (some "5") "ip" 0 Upstream.netError freshState).fst
      = ApiResult.internalError := by decide
  refine ⟨(C8_credits_advisory "k" (some "2") "ip" 0 upAlice freshState).1
      ⟨normalizeUser uAlice, by decide⟩,
    (C8_credits_advisory "k" (some "5") "ip" 0 Upstream.netError freshState).2.1 ?_,
    (C8_credits_advisory "k" (some "2") "ip" 0 upAlice freshState).2.2 42⟩
  intro p
  rw [h5]
  simp

/-- Claim C9: with the upstream API key unset, every lookup — whatever the
identifier, client, clock, upstream behaviour or starting state — answers
with the 500 configuration failure and leaves the whole module state
(cache, rate-limiter map, credit counter) untouched; the key check runs
before validation, rate limiting and cache access. -/
theorem C9_missing_key (fidParam : Option String) (ip : String) (now : Int)
    (up : Upstream) (st : ServerState) :
    GET none fidParam ip now up st = (ApiResult.configError, st) := rfl

/-- If the miss handler answers with a 200 success, the hit flag is false,
the profile is the normalization of its own `raw` field, and the upstream
delivered a parsed 2xx body whose first record is exactly that `raw`. -/
theorem handleMiss_ok (fid : String) (up : Upstream) (now : Int) (st : ServerState)
    (p : NormalizedProfile) (hit : Bool)
    (h : (handleMiss fid up now st).fst = ApiResult.ok p hit) :
    hit = false ∧ p = normalizeUser p.raw ∧
    ∃ status j rest, up = Upstream.httpResp status (UpstreamBody.parsed j) ∧
      extractUsers j = p.raw :: rest := by
  cases up with
  | netError => simp [handleMiss] at h
  | httpResp status body =>
    by_cases h1 : status = 402
    · simp [handleMiss, h1] at h
    · by_cases h2 : status = 401 ∨ status = 403
      · simp [handleMiss, h1, h2] at h
      · by_cases h3 : 200 ≤ status ∧ status < 300
        · cases body with
          | malformed => simp [handleMiss, h1, h2, h3] at h
          | parsed j =>
            cases hus : extractUsers j with
            | nil => simp [handleMiss, h1, h2, h3, hus] at h
            | cons u rest =>
              simp [handleMiss, h1, h2, h3, hus] at h
              obtain ⟨hp, hh⟩ := h
              have hraw : p.raw = u := hp ▸ rfl
              refine ⟨hh, ?_, status, j, rest, rfl, ?_⟩
              · rw [hraw, ← hp]
              · rw [hraw]
                exact hus
        · simp [handleMiss, h1, h2, h3] at h

/-- Claim C10: every 200 answer of `GET` carries a profile that is the
normalization of its own `raw` field — the untyped record verbatim; on a
hit that record is the cached raw record under the trimmed identifier, and
on a miss it is the first record of the parsed upstream body. -/
theorem C10_raw_exposed (k : String) (fidParam : Option String) (ip : String)
    (now : Int) (up : Upstream) (st : ServerState) (p : NormalizedProfile) (hit : Bool)
    (h : (GET (some k) fidParam ip now up st).fst = ApiResult.ok p hit) :
    p = normalizeUser p.raw ∧
    (hit = true → ∃ e, mfind st.cache (jsTrim (fidParam.getD "")) = some e ∧
        p.raw = e.value) ∧
    (hit = false → ∃ status j rest, up = Upstream.httpResp status (UpstreamBody.parsed j) ∧
        extractUsers j = p.raw :: rest) := by
  unfold GET at h
  by_cases hfe : jsTrim (fidParam.getD "") = ""
  · simp [hfe] at h
  · by_cases hg : (hasComma (jsTrim (fidParam.getD ""))
        || !allDigits (jsTrim (fidParam.getD ""))) = true
    · simp [hfe, hg] at h
    · by_cases hrl : (isRateLimited ip now st.rateMap).fst = true
      · simp [hfe, hg, hrl] at h
      · cases hcr : (getFromCache st.cache now (jsTrim (fidParam.getD ""))).fst with
        | some u =>
          simp [hfe, hg, hrl, hcr] at h
          obtain ⟨hp, hh⟩ := h
          have hraw : p.raw = u := hp ▸ rfl
          have hstruct : ∃ e, mfind st.cache (jsTrim (fidParam.getD "")) = some e ∧
              u = e.value := by
            revert hcr
            unfold getFromCache
            cases hm : mfind st.cache (jsTrim (fidParam.getD "")) with
            | none => intro hcr; simp at hcr
            | some e =>
              by_cases hx : now > e.expiresAt
              · intro hcr; simp [hx] at hcr
              · intro hcr
                simp [hx] at hcr
                exact ⟨e, rfl, hcr.symm⟩
          obtain ⟨e, hm, hv⟩ := hstruct
          refine ⟨by rw [hraw, ← hp], fun _ => ⟨e, hm, by rw [hraw, hv]⟩, fun hf => ?_⟩
          rw [hf] at hh
          cases hh
        | none =>
          simp [hfe, hg, hrl, hcr] at h
          have hm := handleMiss_ok _ up now _ p hit h
          refine ⟨hm.2.1, fun ht => ?_, fun _ => hm.2.2⟩
          rw [hm.1] at ht
          cases ht

/-- Claim C10, witness: the profile served for identifier 2 from the fresh
upstream record is the normalization of its own verbatim `raw` field, and
that `raw` field is the first record of the upstream body. -/
theorem C10_witness :
    normalizeUser uAlice = normalizeUser (normalizeUser uAlice).raw ∧
    (∃ status j rest, upAlice = Upstream.httpResp status (UpstreamBody.parsed j) ∧
      extractUsers j = (normalizeUser uAlice).raw :: rest) := by
  have h := C10_raw_exposed "k" (some "2") "ip" 0 upAlice freshState
    (normalizeUser uAlice) false (by decide)
  exact ⟨h.1, h.2.2 rfl⟩
